import Mathlib

/-!
Shallow embedding of the TDC registration backend controllers
(`src/controllers/userController.js` and the NOC controller) for the
Telangana Dental Council portal.  The document store, hashing, token
signing, mail transport and cloud upload are external collaborators; they
are modelled as explicit parameters or deterministic stand-in functions.
Each HTTP handler becomes a pure function from the request data and the
store state to a response together with the new store state.
-/

namespace TDC

/-- JS truthiness of an optional string form field: `undefined` and the
empty string are falsy, every other string is truthy. -/
def truthy : Option String → Bool
  | none => false
  | some s => s ≠ ""

/-- Numeric value of a digit character, as used to read a month number. -/
def digitVal (c : Char) : Nat := c.toNat - 48

/-- Translation of the regex `^(0[1-9]|1[0-2])\/\d{4}$` used for the
qualification-year fields: two month digits forming 01-09 or 10-12, a
slash, then exactly four digits. -/
def mmYYYYtest (s : String) : Bool :=
  match s.toList with
  | [m1, m2, sl, y1, y2, y3, y4] =>
    sl == '/' &&
    ((m1 == '0' && decide ('1' ≤ m2) && decide (m2 ≤ '9')) ||
     (m1 == '1' && decide ('0' ≤ m2) && decide (m2 ≤ '2'))) &&
    y1.isDigit && y2.isDigit && y3.isDigit && y4.isDigit
  | _ => false

/-- Spec-side reading of the MM/YYYY pattern: two digits reading as a
month from 01 to 12, a slash, and a four-digit year.  Used only to compare
the regex of the code against the wording of the spec. -/
def specMMYYYY (s : String) : Prop :=
  ∃ m1 m2 y1 y2 y3 y4 : Char,
    s.toList = [m1, m2, '/', y1, y2, y3, y4] ∧
    m1.isDigit ∧ m2.isDigit ∧ y1.isDigit ∧ y2.isDigit ∧ y3.isDigit ∧ y4.isDigit ∧
    1 ≤ 10 * digitVal m1 + digitVal m2 ∧ 10 * digitVal m1 + digitVal m2 ≤ 12

/-- Rejection test for an optional qualification-year field:
`req.cleanedFormData.x && !mmYYYYRegex.test(req.cleanedFormData.x)`. -/
def qualYearBad (o : Option String) : Bool :=
  truthy o && !mmYYYYtest (o.getD "")

/-- Word characters of the JS character class `[a-zA-Z0-9_]`. -/
def isWordChar (c : Char) : Bool :=
  (decide ('a' ≤ c) && decide (c ≤ 'z')) ||
  (decide ('A' ≤ c) && decide (c ≤ 'Z')) ||
  (decide ('0' ≤ c) && decide (c ≤ '9')) ||
  c == '_'

/-- The replace `/[^a-zA-Z0-9_]/g` with the empty string: keep only the
word characters. -/
def stripNonWord (s : String) : String :=
  ⟨s.toList.filter isWordChar⟩

/-- One pass of the replace `/[ ]+/g` with an underscore: each maximal run
of spaces becomes a single underscore.  The flag records whether the
previous character was part of a space run. -/
def collapseSpacesAux : Bool → List Char → List Char
  | _, [] => []
  | inRun, c :: rest =>
    if c = ' ' then
      (if inRun then [] else ['_']) ++ collapseSpacesAux true rest
    else
      c :: collapseSpacesAux false rest

/-- The replace `/[ ]+/g` with an underscore, on strings. -/
def collapseSpaces (s : String) : String :=
  ⟨collapseSpacesAux false s.toList⟩

/-- JS whitespace characters matched by `\s` (ASCII part; the uploaded
names in scope contain no exotic Unicode spaces). -/
def isJsSpace (c : Char) : Bool :=
  c == ' ' || c == '\t' || c == '\n' || c == '\r' || c == '\x0b' || c == '\x0c'

/-- The replace `/\s+/g` with an underscore: each maximal whitespace run
becomes a single underscore. -/
def collapseWsAux : Bool → List Char → List Char
  | _, [] => []
  | inRun, c :: rest =>
    if isJsSpace c then
      (if inRun then [] else ['_']) ++ collapseWsAux true rest
    else
      c :: collapseWsAux false rest

/-- The replace `/\s+/g` with an underscore, on strings. -/
def collapseWs (s : String) : String :=
  ⟨collapseWsAux false s.toList⟩

/-- The expression `[f_name, m_name, l_name].filter(Boolean).join('_')`:
drop absent and empty parts, join the rest with underscores. -/
def joinTruthy (parts : List (Option String)) : String :=
  String.intercalate "_" ((parts.filterMap id).filter (fun s => s ≠ ""))

/-- Folder name derived at registration:
`fullName.replace(/[^a-zA-Z0-9_]/g, '').replace(/[ ]+/g, '_')` — note the
strip runs before the space collapse. -/
def regSafeName (f m l : Option String) : String :=
  collapseSpaces (stripNonWord (joinTruthy [f, m, l]))

/-- Folder name derived in the NOC controller:
`join('_').replace(/\s+/g, '_')` and then the `[^a-zA-Z0-9_]` strip —
the opposite order of the registration controller. -/
def nocSafeName (f m l : Option String) : String :=
  stripNonWord (collapseWs (joinTruthy [f, m, l]))

/-- Folder name as the spec words it for registration: spaces collapsed to
underscores and other non-word characters stripped, i.e. the collapse
acting before the strip so that a space survives as an underscore.  Used
only to compare code and spec. -/
def specSafeName (f m l : Option String) : String :=
  stripNonWord (collapseSpaces (joinTruthy [f, m, l]))

/-- Node `path.extname` restricted to the names in scope: the suffix of
the basename from its last dot, empty when the basename has no dot or only
a leading dot. -/
def extname (s : String) : String :=
  let b := (s.toList.reverse.takeWhile (fun c => c ≠ '/')).reverse
  let rev := b.reverse
  let ext := rev.takeWhile (fun c => c ≠ '.')
  if ext.length = rev.length then ""
  else if ext.length + 1 = rev.length then ""
  else ⟨'.' :: ext.reverse⟩

/-- JS `toLowerCase` on the ASCII names in scope. -/
def lowerStr (s : String) : String :=
  ⟨s.toList.map Char.toLower⟩

/-- Stand-in for the external sha256 hex digest: the claims only need it
to be a fixed deterministic function. -/
def sha256 (s : String) : String := "sha256:" ++ s

/-- Stand-in for the external bcrypt hash. -/
def bcryptHash (s : String) : String := "bcrypt:" ++ s

/-- Stand-in for `bcrypt.compare`: the plaintext matches a stored value
exactly when the stored value is its hash. -/
def bcryptCompare (plain stored : String) : Bool :=
  stored == bcryptHash plain

/-- An uploaded file as the multipart middleware presents it: original
client-side name and buffered content. -/
structure FileEntry where
  originalname : String
  buffer : String
deriving DecidableEq

/-- A persisted user document (the fields the controllers read). -/
structure StoredUser where
  id : Nat
  email : Option String
  mobile_number : Option String
  password : String
  f_name : String
  m_name : Option String
  l_name : String
  resetPasswordToken : Option String
  resetPasswordExpire : Option Nat
deriving DecidableEq

/-- A persisted NOC application document. -/
structure NOCRecord where
  user_id : Nat
  dental_council_name : String
  postal_address : String
  files : List (String × String)
  createdAt : Nat
deriving DecidableEq

/-- The record store: users, the two pre-seeded reference collections
(by identifier), NOC applications, and the next generated identifier. -/
structure DB where
  users : List StoredUser
  regCategories : List String
  nationalities : List String
  nocs : List NOCRecord
  nextId : Nat
deriving DecidableEq

/-- An HTTP response as far as the claims observe it: status code, the
`message`/`error` body field, and the auth token when one is issued. -/
structure Resp where
  status : Nat
  message : String
  token : Option Nat
deriving DecidableEq

/-- Mongoose `findById` on a reference collection.  An `undefined`
identifier is dropped from the query, which then matches the first
document of the collection. -/
def findByIdOk (ids : List String) (oid : Option String) : Bool :=
  match oid with
  | none => !ids.isEmpty
  | some i => ids.contains i

/-- Mongoose `findOne {field: v}` over the users: an `undefined` value is
dropped from the query, so the query matches the first document. -/
def findOneBy (f : StoredUser → Option String) (v : Option String)
    (l : List StoredUser) : Option StoredUser :=
  match v with
  | none => l.head?
  | some s => l.find? (fun u => f u = some s)

/-- Mongoose findOne-then-mutate-then-save: locate the first document
satisfying `p`, replace it by its image under `f`; `none` when no document
matches.  Returns the original document together with the updated list. -/
def updateFirst (p : StoredUser → Bool) (f : StoredUser → StoredUser) :
    List StoredUser → Option (StoredUser × List StoredUser)
  | [] => none
  | u :: rest =>
    if p u then some (u, f u :: rest)
    else
      match updateFirst p f rest with
      | none => none
      | some (v, rest') => some (v, u :: rest')

/-- The cleaned registration form, one optional field per destructured
member of `req.cleanedFormData`. -/
structure RegForm where
  nationality_id : Option String
  regcategory_id : Option String
  email : Option String
  mobile_number : Option String
  password : Option String
  f_name : Option String
  m_name : Option String
  l_name : Option String
  father_name : Option String
  mother_name : Option String
  place : Option String
  dob : Option String
  category : Option String
  address : Option String
  pan_number : Option String
  aadhaar_number : Option String
  regtype : Option String
  bds_qualification_year : Option String
  mds_qualification_year : Option String
deriving DecidableEq

/-- The presence check of the registration handler.  It inspects the
eleven listed personal-information fields and nothing else: neither
email, nor mobile_number, nor password, nor m_name. -/
def presenceOk (f : RegForm) : Bool :=
  truthy f.f_name && truthy f.l_name && truthy f.father_name &&
  truthy f.mother_name && truthy f.place && truthy f.dob &&
  truthy f.category && truthy f.address && truthy f.pan_number &&
  truthy f.aadhaar_number && truthy f.regtype

/-- Message of the per-file PDF check of the registration handler. -/
def onlyPdfMsg (name : String) : String :=
  "Only PDF files allowed. \x27" ++ name ++ "\x27 is not a PDF."

/-- The fail-fast part of the `registerUser` handler, every early return
up to and including the per-file PDF checks of the upload loop: the first
failing check produces its error response, otherwise the validated
password comes back. -/
def registerValidate (db : DB) (form : RegForm)
    (files : List (String × FileEntry)) : Except Resp String :=
  if !presenceOk form then
    .error { status := 400, message := "Missing required personal information fields.",
             token := none }
  else if qualYearBad form.bds_qualification_year then
    .error { status := 400, message := "bds_qualification_year must be in MM/YYYY format",
             token := none }
  else if qualYearBad form.mds_qualification_year then
    .error { status := 400, message := "mds_qualification_year must be in MM/YYYY format",
             token := none }
  else if !findByIdOk db.regCategories form.regcategory_id then
    .error { status := 400, message := "Invalid regcategory_id", token := none }
  else if !findByIdOk db.nationalities form.nationality_id then
    .error { status := 400, message := "Invalid nationality_id", token := none }
  else if (findOneBy (fun u => u.email) form.email db.users).isSome then
    .error { status := 409, message := "Email already exists", token := none }
  else if (findOneBy (fun u => u.mobile_number) form.mobile_number db.users).isSome then
    .error { status := 409, message := "Mobile number already exists", token := none }
  else
    match form.password with
    | none =>
      .error { status := 500,
               message := "Cannot read properties of undefined (reading \x27length\x27)",
               token := none }
    | some pw =>
      if pw.length < 8 then
        .error { status := 400, message := "Password must be at least 8 characters long.",
                 token := none }
      else
        match files.find? (fun kv => lowerStr (extname kv.2.originalname) ≠ ".pdf") with
        | some kv =>
          .error { status := 400, message := onlyPdfMsg kv.2.originalname, token := none }
        | none => .ok pw

/-- The user document built by `new User(req.cleanedFormData)` (the
fields of the model the controllers later read). -/
def regNewUser (db : DB) (form : RegForm) (pw : String) : StoredUser :=
  { id := db.nextId, email := form.email,
    mobile_number := form.mobile_number, password := pw,
    f_name := form.f_name.getD "", m_name := form.m_name,
    l_name := form.l_name.getD "",
    resetPasswordToken := none, resetPasswordExpire := none }

/-- The `registerUser` handler.  `files` is `req.fileBufferMap` in
iteration order and `emailOk` tells whether the external welcome-mail send
succeeds.  On a validation failure the store is untouched; otherwise the
user document is saved first, and only then is the welcome mail sent, so a
mail failure is caught after the save and turned into a 500 response. -/
def registerUser (db : DB) (form : RegForm) (files : List (String × FileEntry))
    (emailOk : Bool) : Resp × DB :=
  match registerValidate db form files with
  | .error r => (r, db)
  | .ok pw =>
    let newUser : StoredUser := regNewUser db form pw
    let dbNew : DB :=
      { db with
        users := db.users ++ [newUser]
        nextId := db.nextId + 1 }
    if emailOk then
      ({ status := 201, message := "User registered successfully.",
         token := some newUser.id }, dbNew)
    else
      ({ status := 500, message := "welcome email send failed",
         token := none }, dbNew)

/-- The `loginUser` handler.  It reads only the store, so it returns just
the response; the cookie carries the issued token. -/
def loginUser (db : DB) (email password : Option String) : Resp :=
  if !(truthy email && truthy password) then
    { status := 400, message := "Email and password are required.", token := none }
  else
    match db.users.find? (fun u => u.email = email) with
    | none => { status := 400, message := "Invalid email or password.", token := none }
    | some u =>
      if !bcryptCompare (password.getD "") u.password then
        { status := 400, message := "Invalid email or password.", token := none }
      else
        { status := 200, message := "Login successful", token := some u.id }

/-- Mongoose query `{email}` of the forgot-password handler: an
`undefined` email is dropped from the query, which then matches the first
user. -/
def emailQuery (email : Option String) (u : StoredUser) : Bool :=
  match email with
  | none => true
  | some e => u.email = some e

/-- The pending-reset mutation of the forgot-password handler: store the
hash of the fresh token and a 15-minute expiry. -/
def setPendingReset (resetToken : String) (now : Nat) (u : StoredUser) : StoredUser :=
  { u with resetPasswordToken := some (sha256 resetToken)
           resetPasswordExpire := some (now + 15 * 60 * 1000) }

/-- Clearing mutation used on a mail-send failure: both reset fields
back to `undefined`. -/
def clearReset (u : StoredUser) : StoredUser :=
  { u with resetPasswordToken := none, resetPasswordExpire := none }

/-- The `forgotPassword` handler.  `resetToken` is the random token drawn
by the external entropy source, `emailOk` tells whether the external mail
send succeeds, `now` is the clock. -/
def forgotPassword (db : DB) (email : Option String) (resetToken : String)
    (emailOk : Bool) (now : Nat) : Resp × DB :=
  match updateFirst (emailQuery email) (setPendingReset resetToken now) db.users with
  | none => ({ status := 404, message := "User not found.", token := none }, db)
  | some (_, users1) =>
    if emailOk then
      ({ status := 200, message := "Reset password email sent.", token := none },
       { db with users := users1 })
    else
      match updateFirst (emailQuery email) clearReset users1 with
      | none =>
        ({ status := 500, message := "Failed to send reset email.", token := none },
         { db with users := users1 })
      | some (_, users2) =>
        ({ status := 500, message := "Failed to send reset email.", token := none },
         { db with users := users2 })

/-- The query of the reset-password handler: stored hash equal to the hash
of the presented token AND a strictly future expiry; an absent expiry
never satisfies `$gt`. -/
def resetTokenMatch (hashed : String) (now : Nat) (u : StoredUser) : Bool :=
  u.resetPasswordToken = some hashed &&
  match u.resetPasswordExpire with
  | some e => now < e
  | none => false

/-- The success mutation of the reset-password handler: store the new
password and clear both reset fields. -/
def applyReset (newPassword : String) (u : StoredUser) : StoredUser :=
  { u with password := newPassword
           resetPasswordToken := none
           resetPasswordExpire := none }

/-- The `resetPassword` handler: `tok` is the path token, `newPassword`
the submitted body password, `now` the clock. -/
def resetPassword (db : DB) (tok newPassword : String) (now : Nat) : Resp × DB :=
  match updateFirst (resetTokenMatch (sha256 tok) now) (applyReset newPassword)
      db.users with
  | none => ({ status := 400, message := "Invalid or expired token.", token := none }, db)
  | some (u, usersNew) =>
    ({ status := 200, message := "Password updated successfully.", token := some u.id },
     { db with users := usersNew })

/-- The NOC application form fields. -/
structure NOCForm where
  dental_council_name : Option String
  postal_address : Option String
deriving DecidableEq

/-- Stand-in for the external cloud upload: a deterministic URL from
folder and file name. -/
def cloudinaryUrl (folder filename : String) : String :=
  "https://res.cloudinary/" ++ folder ++ "/" ++ filename

/-- The `applyNOC` handler.  `user` is the authenticated `req.user`
document injected by the auth middleware, `files` is `req.fileBufferMap`
in iteration order, `now` is the clock (used in file names and the
creation timestamp).  No PDF check is performed here. -/
def applyNOC (db : DB) (user : StoredUser) (form : NOCForm)
    (files : List (String × FileEntry)) (now : Nat) : Resp × DB :=
  if (files.find? (fun kv => kv.1 = "tdc_reg_certificate_upload")).isNone then
    ({ status := 400, message := "Missing required file: tdc_reg_certificate_upload",
       token := none }, db)
  else if (files.find? (fun kv => kv.1 = "aadhaar_upload")).isNone then
    ({ status := 400, message := "Missing required file: aadhaar_upload",
       token := none }, db)
  else if !(truthy form.dental_council_name && truthy form.postal_address) then
    ({ status := 400, message := "All fields are required", token := none }, db)
  else
    let safeName := nocSafeName (some user.f_name) user.m_name (some user.l_name)
    let savedFiles := files.map (fun kv =>
      (kv.1, cloudinaryUrl safeName (toString now ++ "-" ++ kv.1 ++ ".pdf")))
    let noc : NOCRecord :=
      { user_id := user.id,
        dental_council_name := form.dental_council_name.getD "",
        postal_address := form.postal_address.getD "",
        files := savedFiles, createdAt := now }
    ({ status := 201, message := "NOC submitted successfully", token := none },
     { db with nocs := db.nocs ++ [noc] })

/-- The `getNOC` handler: `NOC.find({user_id}).sort({createdAt: -1})` —
the applications of the current user, most recent creation first. -/
def getNOC (db : DB) (userId : Nat) : Resp × List NOCRecord :=
  let apps := List.insertionSort (fun a b : NOCRecord => b.createdAt ≤ a.createdAt)
    (db.nocs.filter (fun a => a.user_id == userId))
  ({ status := 200, message := "", token := none }, apps)

/-! Concrete fixtures used to evaluate the handlers on closed inputs. -/

/-- A fully valid registration form. -/
def form0 : RegForm :=
  { nationality_id := some "n1", regcategory_id := some "rc1",
    email := some "a@b.c", mobile_number := some "9999",
    password := some "longpassword",
    f_name := some "First", m_name := none, l_name := some "Last",
    father_name := some "Fa", mother_name := some "Mo", place := some "P",
    dob := some "01/01/1990", category := some "Gen", address := some "Addr",
    pan_number := some "PAN", aadhaar_number := some "AAD", regtype := some "new",
    bds_qualification_year := none, mds_qualification_year := none }

/-- A store holding the two reference documents and no users. -/
def db0 : DB :=
  { users := [], regCategories := ["rc1"], nationalities := ["n1"],
    nocs := [], nextId := 1 }

/-- A stored user with no pending reset token. -/
def u0 : StoredUser :=
  { id := 7, email := some "a@b.c", mobile_number := some "9",
    password := bcryptHash "pw", f_name := "A", m_name := none, l_name := "B",
    resetPasswordToken := none, resetPasswordExpire := none }

/-- The store `db0` with the single user `u0`. -/
def db1 : DB := { db0 with users := [u0] }

/-- An NOC file map carrying both required attachments, the second of
which is not a PDF. -/
def nocFiles : List (String × FileEntry) :=
  [("tdc_reg_certificate_upload", { originalname := "cert.pdf", buffer := "x" }),
   ("aadhaar_upload", { originalname := "aadhaar.txt", buffer := "y" })]

/-- A complete NOC form. -/
def nocForm0 : NOCForm :=
  { dental_council_name := some "Delhi Dental Council", postal_address := some "PO 1" }

/-- A user holding a pending reset token (hash of "tkn", expiring at
epoch 900000). -/
def uPending : StoredUser :=
  { u0 with resetPasswordToken := some (sha256 "tkn")
            resetPasswordExpire := some 900000 }

/-- The store `db0` with the single user `uPending`. -/
def dbReset : DB := { db0 with users := [uPending] }

/-! Helper lemmas about `updateFirst`. -/

/-- The update finds nothing exactly when no document satisfies the
predicate. -/
theorem updateFirst_eq_none {p : StoredUser → Bool} {f : StoredUser → StoredUser}
    {l : List StoredUser} :
    updateFirst p f l = none ↔ ∀ u ∈ l, p u = false := by
  induction l with
  | nil => simp [updateFirst]
  | cons a t ih =>
    simp only [updateFirst]
    by_cases h : p a
    · simp [h]
    · cases hrec : updateFirst p f t with
      | none =>
        simp only [h, Bool.false_eq_true, if_false, hrec]
        simp only [List.forall_mem_cons, true_iff]
        exact ⟨by simpa using h, ih.mp hrec⟩
      | some v =>
        simp only [h, Bool.false_eq_true, if_false, hrec]
        constructor
        · intro hc; cases hc
        · intro hall
          have : updateFirst p f t = none := by
            exact ih.mpr (fun u hu => hall u (List.mem_cons_of_mem a hu))
          rw [this] at hrec; cases hrec

/-- A successful update splits the list at the first document satisfying
the predicate and maps only that document. -/
theorem updateFirst_eq_some {p : StoredUser → Bool} {f : StoredUser → StoredUser} :
    ∀ {l l2 : List StoredUser} {u : StoredUser},
    updateFirst p f l = some (u, l2) →
    p u = true ∧ ∃ pre post, l = pre ++ u :: post ∧ (∀ v ∈ pre, p v = false) ∧
      l2 = pre ++ f u :: post := by
  intro l
  induction l with
  | nil => intro l2 u h; simp [updateFirst] at h
  | cons a t ih =>
    intro l2 u h
    simp only [updateFirst] at h
    by_cases hp : p a
    · simp only [hp, if_true, Option.some.injEq, Prod.mk.injEq] at h
      obtain ⟨h1, h2⟩ := h
      subst h1; subst h2
      exact ⟨hp, [], t, rfl, by simp, rfl⟩
    · simp only [hp, Bool.false_eq_true, if_false] at h
      cases hrec : updateFirst p f t with
      | none => rw [hrec] at h; cases h
      | some v =>
        rw [hrec] at h
        cases v with
        | mk v1 v2 =>
          simp only [Option.some.injEq, Prod.mk.injEq] at h
          obtain ⟨h1, h2⟩ := h
          subst h1; subst h2
          obtain ⟨hv, pre, post, hsplit, hpre, hl2⟩ := ih hrec
          refine ⟨hv, a :: pre, post, by simp [hsplit], ?_, by simp [hl2]⟩
          intro w hw
          rcases List.mem_cons.mp hw with hwa | hw2
          · subst hwa; simpa using hp
          · exact hpre w hw2

/-- The update succeeds exactly when some document satisfies the
predicate. -/
theorem updateFirst_isSome {p : StoredUser → Bool} {f : StoredUser → StoredUser}
    {l : List StoredUser} :
    (updateFirst p f l).isSome = true ↔ ∃ u ∈ l, p u = true := by
  cases h : updateFirst p f l with
  | none =>
    simp only [Option.isSome_none, Bool.false_eq_true, false_iff]
    intro hc
    obtain ⟨u, hu, hpu⟩ := hc
    have := updateFirst_eq_none.mp h u hu
    rw [hpu] at this; cases this
  | some v =>
    cases v with
    | mk v1 v2 =>
      simp only [Option.isSome_some, true_iff]
      obtain ⟨hv, pre, post, hsplit, _, _⟩ := updateFirst_eq_some h
      exact ⟨v1, by rw [hsplit]; simp, hv⟩

/-! Character-level lemmas bridging the regex translation and the
numeric reading of the month. -/

/-- Characters with the same scalar value are equal. -/
theorem char_toNat_inj {a b : Char} (h : a.toNat = b.toNat) : a = b := by
  have : a.val = b.val := by
    apply UInt32.eq_of_toBitVec_eq
    apply BitVec.eq_of_toNat_eq
    exact h
  exact Char.ext this

/-- Digit characters are those with scalar value between 48 and 57. -/
theorem isDigit_iff {c : Char} : c.isDigit = true ↔ 48 ≤ c.toNat ∧ c.toNat ≤ 57 := by
  simp only [Char.isDigit, Bool.and_eq_true, decide_eq_true_eq]
  exact ⟨fun ⟨h1, h2⟩ => ⟨h1, h2⟩, fun ⟨h1, h2⟩ => ⟨h1, h2⟩⟩

/-- Order on characters is the order of scalar values. -/
theorem char_le_iff {a b : Char} : a ≤ b ↔ a.toNat ≤ b.toNat := Iff.rfl

/-- The month alternation `0[1-9]|1[0-2]` of the regex holds exactly when
the two characters are digits reading as a number from 1 to 12. -/
theorem monthChars_iff (m1 m2 : Char) :
    ((m1 == '0' && decide ('1' ≤ m2) && decide (m2 ≤ '9')) ||
     (m1 == '1' && decide ('0' ≤ m2) && decide (m2 ≤ '2'))) = true ↔
    (m1.isDigit = true ∧ m2.isDigit = true ∧
     1 ≤ 10 * digitVal m1 + digitVal m2 ∧ 10 * digitVal m1 + digitVal m2 ≤ 12) := by
  have t0 : ('0' : Char).toNat = 48 := rfl
  have t1 : ('1' : Char).toNat = 49 := rfl
  have t2 : ('2' : Char).toNat = 50 := rfl
  have t9 : ('9' : Char).toNat = 57 := rfl
  simp only [Bool.or_eq_true, Bool.and_eq_true, beq_iff_eq, decide_eq_true_eq]
  constructor
  · rintro (⟨⟨h0, ha⟩, hb⟩ | ⟨⟨h0, ha⟩, hb⟩)
    · subst h0
      have hna : (49 : Nat) ≤ m2.toNat := t1 ▸ char_le_iff.mp ha
      have hnb : m2.toNat ≤ 57 := t9 ▸ char_le_iff.mp hb
      refine ⟨by decide, isDigit_iff.mpr (by omega), ?_, ?_⟩ <;>
        simp only [digitVal, t0] <;> omega
    · subst h0
      have hna : (48 : Nat) ≤ m2.toNat := t0 ▸ char_le_iff.mp ha
      have hnb : m2.toNat ≤ 50 := t2 ▸ char_le_iff.mp hb
      refine ⟨by decide, isDigit_iff.mpr (by omega), ?_, ?_⟩ <;>
        simp only [digitVal, t1] <;> omega
  · rintro ⟨hd1, hd2, hlo, hhi⟩
    have hb1 := isDigit_iff.mp hd1
    have hb2 := isDigit_iff.mp hd2
    simp only [digitVal] at hlo hhi
    have hcase : m1.toNat = 48 ∨ m1.toNat = 49 := by omega
    rcases hcase with hm | hm
    · left
      refine ⟨⟨char_toNat_inj (by rw [hm]; decide), ?_⟩, ?_⟩
      · exact char_le_iff.mpr (by rw [t1]; omega)
      · exact char_le_iff.mpr (by rw [t9]; omega)
    · right
      refine ⟨⟨char_toNat_inj (by rw [hm]; decide), ?_⟩, ?_⟩
      · exact char_le_iff.mpr (by rw [t0]; omega)
      · exact char_le_iff.mpr (by rw [t2]; omega)

/-- The regex test of the code accepts a string exactly when it reads as
MM/YYYY with a month from 01 to 12 and a four-digit year. -/
theorem mmYYYY_iff_spec (s : String) : mmYYYYtest s = true ↔ specMMYYYY s := by
  unfold mmYYYYtest specMMYYYY
  rcases hl : s.toList with
    _ | ⟨c1, _ | ⟨c2, _ | ⟨c3, _ | ⟨c4, _ | ⟨c5, _ | ⟨c6, _ | ⟨c7, _ | ⟨c8, rest⟩⟩⟩⟩⟩⟩⟩⟩ <;>
    simp only [hl]
  · simp
  · simp
  · simp
  · simp
  · simp
  · simp
  · simp
  · simp only [Bool.and_eq_true, beq_iff_eq, List.cons.injEq, and_true]
    constructor
    · rintro ⟨⟨⟨⟨⟨hsl, hm⟩, h4⟩, h5⟩, h6⟩, h7⟩
      obtain ⟨hd1, hd2, hlo, hhi⟩ := (monthChars_iff c1 c2).mp hm
      exact ⟨c1, c2, c4, c5, c6, c7,
        ⟨rfl, rfl, hsl, rfl, rfl, rfl, rfl⟩, hd1, hd2, h4, h5, h6, h7, hlo, hhi⟩
    · rintro ⟨m1, m2, y1, y2, y3, y4,
        ⟨he1, he2, hsl, he4, he5, he6, he7⟩, hd1, hd2, h4, h5, h6, h7, hlo, hhi⟩
      subst he1; subst he2; subst hsl; subst he4; subst he5; subst he6; subst he7
      exact ⟨⟨⟨⟨⟨rfl, (monthChars_iff c1 c2).mpr ⟨hd1, hd2, hlo, hhi⟩⟩, h4⟩, h5⟩, h6⟩, h7⟩
  · simp

/-! Helper lemmas for the safe-name derivation, the reset-token query
and the registration validation chain. -/

/-- The space-collapsing pass leaves a space-free character list
untouched. -/
theorem collapseSpacesAux_no_space :
    ∀ (cs : List Char), (∀ c ∈ cs, c ≠ ' ') → ∀ b, collapseSpacesAux b cs = cs := by
  intro cs
  induction cs with
  | nil => intro _ b; rfl
  | cons a t ih =>
    intro h b
    have ha : a ≠ ' ' := h a (List.mem_cons_self a t)
    simp only [collapseSpacesAux, if_neg ha]
    rw [ih (fun c hc => h c (List.mem_cons_of_mem a hc)) false]

/-- After the word-character strip there is no space left, so the
space-collapsing replace is the identity on its output. -/
theorem collapseSpaces_strip (s : String) :
    collapseSpaces (stripNonWord s) = stripNonWord s := by
  unfold collapseSpaces stripNonWord
  apply congrArg String.mk
  apply collapseSpacesAux_no_space
  intro c hc
  have hw : isWordChar c = true := (List.mem_filter.mp hc).2
  intro hsp
  subst hsp
  simp [isWordChar] at hw

/-- The reset query succeeds on a document exactly when the stored hash
matches and the stored expiry lies strictly in the future. -/
theorem resetTokenMatch_iff {h : String} {now : Nat} {u : StoredUser} :
    resetTokenMatch h now u = true ↔
    (u.resetPasswordToken = some h ∧ ∃ e, u.resetPasswordExpire = some e ∧ now < e) := by
  unfold resetTokenMatch
  cases he : u.resetPasswordExpire with
  | none => simp [he]
  | some e => simp [he]

/-- When the prefix fails the predicate and `w` satisfies it, the update
acts exactly at `w`. -/
theorem updateFirst_append_found {p : StoredUser → Bool} {f : StoredUser → StoredUser}
    {pre post : List StoredUser} {w : StoredUser}
    (hpre : ∀ v ∈ pre, p v = false) (hw : p w = true) :
    updateFirst p f (pre ++ w :: post) = some (w, pre ++ f w :: post) := by
  induction pre with
  | nil => simp [updateFirst, hw]
  | cons a t ih =>
    have ha : p a = false := hpre a (List.mem_cons_self a t)
    have ht : ∀ v ∈ t, p v = false := fun v hv => hpre v (List.mem_cons_of_mem a hv)
    simp only [List.cons_append, updateFirst, ha, Bool.false_eq_true, if_false,
      List.append_eq]
    rw [ih ht]

/-- Every error response of the registration validation chain carries
status 400, 409 or 500. -/
theorem registerValidate_error_status {db : DB} {form : RegForm}
    {files : List (String × FileEntry)} {r : Resp}
    (h : registerValidate db form files = Except.error r) :
    r.status = 400 ∨ r.status = 409 ∨ r.status = 500 := by
  unfold registerValidate at h
  repeat' split at h
  all_goals first
    | (injection h with he; subst he; simp)
    | (simp at h)

/-- A validation success means every submitted file passed the PDF
extension check. -/
theorem registerValidate_ok_files {db : DB} {form : RegForm}
    {files : List (String × FileEntry)} {pw : String}
    (h : registerValidate db form files = Except.ok pw) :
    ∀ kv ∈ files, lowerStr (extname kv.2.originalname) = ".pdf" := by
  unfold registerValidate at h
  repeat' split at h
  all_goals try (simp at h)
  rename_i heq
  intro kv hkv
  have := List.find?_eq_none.mp heq kv hkv
  simpa using this

/-! Claim theorems. -/

/-- C5 counterexample: the registration folder name for a first name
containing a space.  The code strips the space (the word-character strip
runs first), while the derivation worded by the spec — spaces collapsed
to underscores — would keep it as an underscore, so the two differ on
this input and the claimed example is false. -/
theorem c5_counterexample :
    regSafeName (some "A B") none (some "C") = "AB_C" ∧
    specSafeName (some "A B") none (some "C") = "A_B_C" ∧
    regSafeName (some "A B") none (some "C") ≠
      specSafeName (some "A B") none (some "C") := by
  refine ⟨by decide, by decide, by decide⟩

/-- C5 amended: the registration folder name equals the concatenated
truthy name parts with every non-word character stripped — spaces
included, since the strip runs before the space-collapse, making that
collapse a no-op; a first name containing a space therefore yields a
folder name with the space removed, not replaced by an underscore. -/
theorem c5_regSafeName_strips_spaces (f m l : Option String) :
    regSafeName f m l = stripNonWord (joinTruthy [f, m, l]) ∧
    regSafeName (some "A B") none (some "C") = "AB_C" := by
  constructor
  · unfold regSafeName
    exact collapseSpaces_strip _
  · decide

/-- C7: a qualification-year value passes the regex of the code exactly
when it reads as MM/YYYY with a month from 01 to 12 and a four-digit
year; in particular a registration submitting 13/2020 is rejected with
400 and the same submission with 04/2020 is accepted with 201. -/
theorem c7_qual_year_mm_yyyy :
    (∀ s : String, mmYYYYtest s = true ↔ specMMYYYY s) ∧
    (registerUser db0 { form0 with bds_qualification_year := some "13/2020" } [] true).1 =
      { status := 400, message := "bds_qualification_year must be in MM/YYYY format",
        token := none } ∧
    (registerUser db0 { form0 with bds_qualification_year := some "04/2020" } [] true).1.status
      = 201 :=
  ⟨mmYYYY_iff_spec, by decide, by decide⟩

/-- C8: listing NOC applications returns exactly the applications whose
owner reference is the requesting user — never one owned by a different
user — ordered by descending creation time. -/
theorem c8_getNOC_own_applications_newest_first (db : DB) (uid : Nat) :
    (getNOC db uid).1.status = 200 ∧
    (∀ a : NOCRecord, a ∈ (getNOC db uid).2 ↔ (a ∈ db.nocs ∧ a.user_id = uid)) ∧
    List.Pairwise (fun a b : NOCRecord => b.createdAt ≤ a.createdAt) (getNOC db uid).2 := by
  refine ⟨rfl, ?_, ?_⟩
  · intro a
    show a ∈ List.insertionSort _ (db.nocs.filter _) ↔ _
    rw [(List.perm_insertionSort _ _).mem_iff]
    simp [List.mem_filter]
  · haveI : IsTotal NOCRecord (fun a b => b.createdAt ≤ a.createdAt) :=
      ⟨fun a b => le_total b.createdAt a.createdAt⟩
    haveI : IsTrans NOCRecord (fun a b => b.createdAt ≤ a.createdAt) :=
      ⟨fun _ _ _ hab hbc => le_trans hbc hab⟩
    exact List.sorted_insertionSort _ _

/-- C1 counterexample: a registration that passes every validation and
persists the user record, but whose welcome-mail send fails, is answered
with 500 and no token — not with 201 and the token as claimed; the mail
failure is surfaced by the catch-all handler, not swallowed. -/
theorem c1_counterexample :
    registerValidate db0 form0 [] = Except.ok "longpassword" ∧
    (registerUser db0 form0 [] false).2.users =
      db0.users ++ [regNewUser db0 form0 "longpassword"] ∧
    (registerUser db0 form0 [] false).1.status = 500 ∧
    ¬((registerUser db0 form0 [] false).1.status = 201 ∧
      (registerUser db0 form0 [] false).1.token ≠ none) := by
  refine ⟨by rfl, by decide, by decide, by decide⟩

/-- C1 amended: when a registration passes all validation, a failure of
the welcome-notification send still leaves the user record persisted, but
the handler responds 500 with no token (the awaited send rejects into the
surrounding catch), producing the same store as a successful send. -/
theorem c1_welcome_failure_responds_500 (db : DB) (form : RegForm)
    (files : List (String × FileEntry)) (pw : String)
    (h : registerValidate db form files = Except.ok pw) :
    (registerUser db form files false).1.status = 500 ∧
    (registerUser db form files false).1.token = none ∧
    (registerUser db form files false).2.users = db.users ++ [regNewUser db form pw] ∧
    (registerUser db form files false).2 = (registerUser db form files true).2 := by
  unfold registerUser
  rw [h]
  exact ⟨rfl, rfl, rfl, rfl⟩

/-- C1 amended witness at the concrete fixture. -/
theorem c1_witness :
    (registerUser db0 form0 [] false).1.status = 500 ∧
    (registerUser db0 form0 [] false).1.token = none ∧
    (registerUser db0 form0 [] false).2.users =
      db0.users ++ [regNewUser db0 form0 "longpassword"] ∧
    (registerUser db0 form0 [] false).2 = (registerUser db0 form0 [] true).2 :=
  c1_welcome_failure_responds_500 db0 form0 [] "longpassword" (by rfl)

/-- C2 counterexample: an NOC submission whose aadhaar attachment is not
a PDF is nonetheless accepted with 201 and its application record
persisted — the NOC handler performs no extension check, refuting the
claim for NOC submissions. -/
theorem c2_counterexample :
    lowerStr (extname "aadhaar.txt") ≠ ".pdf" ∧
    (applyNOC db1 u0 nocForm0 nocFiles 5).1.status = 201 ∧
    (applyNOC db1 u0 nocForm0 nocFiles 5).2.nocs.length = db1.nocs.length + 1 := by
  refine ⟨by decide, by decide, by decide⟩

/-- C2 amended: at registration a file whose name lacks a .pdf extension
prevents any user record from being persisted and the response is never
201; the NOC handler, by contrast, runs no extension check — with the
required attachments and fields present it responds 201 and persists the
application record whatever the extensions. -/
theorem c2_pdf_check_registration_only (db : DB) (form : RegForm)
    (files : List (String × FileEntry)) (emailOk : Bool)
    (nocdb : DB) (user : StoredUser) (nform : NOCForm) (now : Nat)
    (hbad : ∃ kv ∈ files, lowerStr (extname kv.2.originalname) ≠ ".pdf")
    (hreq1 : (files.find? (fun kv => kv.1 = "tdc_reg_certificate_upload")).isNone = false)
    (hreq2 : (files.find? (fun kv => kv.1 = "aadhaar_upload")).isNone = false)
    (hfields : (truthy nform.dental_council_name && truthy nform.postal_address) = true) :
    ((registerUser db form files emailOk).2.users = db.users ∧
     (registerUser db form files emailOk).1.status ≠ 201) ∧
    ((applyNOC nocdb user nform files now).1.status = 201 ∧
     (applyNOC nocdb user nform files now).2.nocs.length = nocdb.nocs.length + 1) := by
  constructor
  · cases hv : registerValidate db form files with
    | error r =>
      constructor
      · unfold registerUser
        rw [hv]
      · unfold registerUser
        rw [hv]
        rcases registerValidate_error_status hv with h4 | h9 | h5
        · simp [h4]
        · simp [h9]
        · simp [h5]
    | ok pw =>
      exfalso
      obtain ⟨kv, hkv, hbadkv⟩ := hbad
      exact hbadkv (registerValidate_ok_files hv kv hkv)
  · unfold applyNOC
    rw [hreq1, hreq2, hfields]
    simp

/-- C2 amended witness at the concrete fixtures. -/
theorem c2_witness :
    ((registerUser db0 form0 nocFiles true).2.users = db0.users ∧
     (registerUser db0 form0 nocFiles true).1.status ≠ 201) ∧
    ((applyNOC db1 u0 nocForm0 nocFiles 5).1.status = 201 ∧
     (applyNOC db1 u0 nocForm0 nocFiles 5).2.nocs.length = db1.nocs.length + 1) :=
  c2_pdf_check_registration_only db0 form0 nocFiles true db1 u0 nocForm0 5
    (by decide) (by decide) (by decide) (by decide)

/-- C9: the presence check of registration ignores email, mobile number
and password; with every checked field present, valid references, no
duplicates and the password absent, validation steps 1 to 6 pass and the
handler then fails with a 500 from the exception reading the length of
the missing password, leaving the store untouched — not with a 400
validation rejection. -/
theorem c9_missing_password_is_500 (db : DB) (form : RegForm)
    (files : List (String × FileEntry)) (emailOk : Bool)
    (hpres : presenceOk form = true)
    (hbds : qualYearBad form.bds_qualification_year = false)
    (hmds : qualYearBad form.mds_qualification_year = false)
    (hrc : findByIdOk db.regCategories form.regcategory_id = true)
    (hnat : findByIdOk db.nationalities form.nationality_id = true)
    (hem : (findOneBy (fun u => u.email) form.email db.users).isSome = false)
    (hmob : (findOneBy (fun u => u.mobile_number) form.mobile_number db.users).isSome = false)
    (hpw : form.password = none) :
    ((registerUser db form files emailOk).1 =
      { status := 500,
        message := "Cannot read properties of undefined (reading \x27length\x27)",
        token := none } ∧
     (registerUser db form files emailOk).2 = db) ∧
    (∀ g : RegForm,
       presenceOk { g with email := none, mobile_number := none, password := none } =
         presenceOk g) := by
  have hval : registerValidate db form files =
      Except.error
        { status := 500,
          message := "Cannot read properties of undefined (reading \x27length\x27)",
          token := none } := by
    unfold registerValidate
    simp [hpres, hbds, hmds, hrc, hnat, hem, hmob, hpw]
  constructor
  · constructor
    · unfold registerUser
      rw [hval]
    · unfold registerUser
      rw [hval]
  · intro g
    rfl

/-- C9 witness: the fixture form with its password removed. -/
theorem c9_witness :
    ((registerUser db0 { form0 with password := none } [] true).1 =
      { status := 500,
        message := "Cannot read properties of undefined (reading \x27length\x27)",
        token := none } ∧
     (registerUser db0 { form0 with password := none } [] true).2 = db0) ∧
    (∀ g : RegForm,
       presenceOk { g with email := none, mobile_number := none, password := none } =
         presenceOk g) :=
  c9_missing_password_is_500 db0 { form0 with password := none } [] true
    (by decide) (by decide) (by decide) (by decide) (by decide) (by decide)
    (by decide) (by decide)

/-- C6: a login with an unknown email and a login with a known email but
a wrong password produce identical responses — status 400 and the same
credential-generic message — so the response does not reveal whether the
email exists. -/
theorem c6_login_no_user_enumeration (db : DB) (e1 p1 e2 p2 : String) (u : StoredUser)
    (he1 : e1 ≠ "") (hp1 : p1 ≠ "") (he2 : e2 ≠ "") (hp2 : p2 ≠ "")
    (hnone : db.users.find? (fun v => v.email = some e1) = none)
    (hfound : db.users.find? (fun v => v.email = some e2) = some u)
    (hwrong : bcryptCompare p2 u.password = false) :
    loginUser db (some e1) (some p1) = loginUser db (some e2) (some p2) ∧
    (loginUser db (some e1) (some p1)).status = 400 ∧
    (loginUser db (some e1) (some p1)).message = "Invalid email or password." := by
  unfold loginUser
  simp [truthy, he1, hp1, he2, hp2, hnone, hfound, hwrong]

/-- C6 witness: in the fixture store, an unknown email and a known email
with a wrong password answer identically. -/
theorem c6_witness :
    loginUser db1 (some "zz") (some "p") = loginUser db1 (some "a@b.c") (some "wrong") ∧
    (loginUser db1 (some "zz") (some "p")).status = 400 ∧
    (loginUser db1 (some "zz") (some "p")).message = "Invalid email or password." :=
  c6_login_no_user_enumeration db1 "zz" "p" "a@b.c" "wrong" u0
    (by decide) (by decide) (by decide) (by decide) (by decide) (by decide) (by decide)

/-- C4: a forgot-password request for an existing user whose notification
send fails responds 500 and leaves the matched user record with both the
reset token hash and the expiry cleared — no pending reset token
remains. -/
theorem c4_forgot_clears_reset_on_mail_failure (db : DB) (email : Option String)
    (tok : String) (now : Nat)
    (h : ∃ u ∈ db.users, emailQuery email u = true) :
    (forgotPassword db email tok false now).1 =
      { status := 500, message := "Failed to send reset email.", token := none } ∧
    ∃ pre u post, db.users = pre ++ u :: post ∧ (∀ v ∈ pre, emailQuery email v = false) ∧
      (forgotPassword db email tok false now).2.users =
        pre ++ clearReset u :: post := by
  obtain ⟨ux, hux, hq⟩ := h
  have hsome : (updateFirst (emailQuery email) (setPendingReset tok now) db.users).isSome
      = true :=
    updateFirst_isSome.mpr ⟨ux, hux, hq⟩
  cases hup : updateFirst (emailQuery email) (setPendingReset tok now) db.users with
  | none => rw [hup] at hsome; cases hsome
  | some v =>
    cases v with
    | mk w users1 =>
      obtain ⟨hw, pre, post, hsplit, hpre, husers1⟩ := updateFirst_eq_some hup
      have hw2 : emailQuery email (setPendingReset tok now w) = true := hw
      have hup2 : updateFirst (emailQuery email) clearReset
          (pre ++ setPendingReset tok now w :: post) =
          some (setPendingReset tok now w,
                pre ++ clearReset (setPendingReset tok now w) :: post) :=
        updateFirst_append_found hpre hw2
      have hcall : forgotPassword db email tok false now =
          ({ status := 500, message := "Failed to send reset email.", token := none },
           { db with users := pre ++ clearReset (setPendingReset tok now w) :: post }) := by
        unfold forgotPassword
        rw [hup, husers1]
        simp only [Bool.false_eq_true, if_false, hup2]
      rw [hcall]
      exact ⟨rfl, pre, w, post, hsplit, hpre, rfl⟩

/-- C4 witness at the concrete fixture store. -/
theorem c4_witness :
    (forgotPassword db1 (some "a@b.c") "tkn" false 1000).1 =
      { status := 500, message := "Failed to send reset email.", token := none } ∧
    ∃ pre u post, db1.users = pre ++ u :: post ∧
      (∀ v ∈ pre, emailQuery (some "a@b.c") v = false) ∧
      (forgotPassword db1 (some "a@b.c") "tkn" false 1000).2.users =
        pre ++ clearReset u :: post :=
  c4_forgot_clears_reset_on_mail_failure db1 (some "a@b.c") "tkn" 1000 (by decide)

/-- C10: a reset-password request with a valid, unexpired token succeeds
and stores the submitted password whatever its length — the
minimum-length rule has no counterpart here; at registration the same
rule rejects a short password with 400. -/
theorem c10_reset_has_no_length_check (db : DB) (tok pw : String) (now : Nat)
    (h : ∃ v ∈ db.users, resetTokenMatch (sha256 tok) now v = true) :
    (resetPassword db tok pw now).1.status = 200 ∧
    (∃ pre v post, db.users = pre ++ v :: post ∧
      (resetPassword db tok pw now).2.users = pre ++ applyReset pw v :: post) ∧
    (registerUser db0 { form0 with password := some "short" } [] true).1 =
      { status := 400, message := "Password must be at least 8 characters long.",
        token := none } := by
  obtain ⟨vx, hvx, hm⟩ := h
  have hsome : (updateFirst (resetTokenMatch (sha256 tok) now)
      (applyReset pw) db.users).isSome = true :=
    updateFirst_isSome.mpr ⟨vx, hvx, hm⟩
  cases hup : updateFirst (resetTokenMatch (sha256 tok) now) (applyReset pw) db.users with
  | none => rw [hup] at hsome; cases hsome
  | some pair =>
    cases pair with
    | mk w usersNew =>
      obtain ⟨hw, pre, post, hsplit, hpre, husers⟩ := updateFirst_eq_some hup
      have hcall : resetPassword db tok pw now =
          ({ status := 200, message := "Password updated successfully.",
             token := some w.id }, { db with users := usersNew }) := by
        unfold resetPassword
        rw [hup]
      rw [hcall]
      exact ⟨rfl, ⟨pre, w, post, hsplit, by rw [husers]⟩, by decide⟩

/-- C10 witness: a three-character password is accepted by reset. -/
theorem c10_witness :
    "abc".length < 8 ∧
    ((resetPassword dbReset "tkn" "abc" 1000).1.status = 200 ∧
     (∃ pre v post, dbReset.users = pre ++ v :: post ∧
       (resetPassword dbReset "tkn" "abc" 1000).2.users =
         pre ++ applyReset "abc" v :: post) ∧
     (registerUser db0 { form0 with password := some "short" } [] true).1 =
       { status := 400, message := "Password must be at least 8 characters long.",
         token := none }) :=
  ⟨by decide, c10_reset_has_no_length_check dbReset "tkn" "abc" 1000 (by decide)⟩

/-- C3: reset-password succeeds exactly when some stored user carries the
hash of the presented token with a strictly future expiry; on success the
token and expiry are cleared so an immediate second use of the same token
is answered 400 invalid-or-expired; and once every stored expiry has
passed, a reset attempt is answered 400 whatever the token. -/
theorem c3_reset_token_single_use_window (db : DB) (tok pw pw2 : String) (now now2 : Nat)
    (huniq : List.Pairwise (fun a b =>
      ¬(a.resetPasswordToken = some (sha256 tok) ∧
        b.resetPasswordToken = some (sha256 tok))) db.users) :
    ((resetPassword db tok pw now).1.status = 200 ↔
      ∃ u ∈ db.users, u.resetPasswordToken = some (sha256 tok) ∧
        ∃ e, u.resetPasswordExpire = some e ∧ now < e) ∧
    ((resetPassword db tok pw now).1.status = 200 →
      (resetPassword (resetPassword db tok pw now).2 tok pw2 now2).1 =
        { status := 400, message := "Invalid or expired token.", token := none }) ∧
    ((∀ u ∈ db.users, ∀ e, u.resetPasswordExpire = some e → e ≤ now) →
      (resetPassword db tok pw now).1 =
        { status := 400, message := "Invalid or expired token.", token := none }) := by
  cases hup : updateFirst (resetTokenMatch (sha256 tok) now) (applyReset pw)
      db.users with
  | none =>
    have hall := updateFirst_eq_none.mp hup
    have hcall : resetPassword db tok pw now =
        ({ status := 400, message := "Invalid or expired token.", token := none }, db) := by
      unfold resetPassword
      rw [hup]
    rw [hcall]
    refine ⟨?_, ?_, ?_⟩
    · constructor
      · intro hc; simp at hc
      · rintro ⟨u, hu, htok, e, hexp, hlt⟩
        have hfalse := hall u hu
        have htrue := resetTokenMatch_iff.mpr ⟨htok, e, hexp, hlt⟩
        rw [htrue] at hfalse
        cases hfalse
    · intro hc; simp at hc
    · intro _; rfl
  | some pair =>
    cases pair with
    | mk w usersNew =>
      obtain ⟨hw, pre, post, hsplit, hpre, husers⟩ := updateFirst_eq_some hup
      have hwtok : w.resetPasswordToken = some (sha256 tok) := (resetTokenMatch_iff.mp hw).1
      have hcall : resetPassword db tok pw now =
          ({ status := 200, message := "Password updated successfully.",
             token := some w.id }, { db with users := usersNew }) := by
        unfold resetPassword
        rw [hup]
      have hpair := hsplit ▸ huniq
      obtain ⟨hpre_pw, hrest_pw, hcross⟩ := List.pairwise_append.mp hpair
      have hpost := List.pairwise_cons.mp hrest_pw |>.1
      refine ⟨?_, ?_, ?_⟩
      · rw [hcall]
        constructor
        · intro _
          exact ⟨w, by rw [hsplit]; simp, hwtok, (resetTokenMatch_iff.mp hw).2⟩
        · intro _; rfl
      · intro _
        have hnone2 : updateFirst (resetTokenMatch (sha256 tok) now2)
            (applyReset pw2) usersNew = none := by
          apply updateFirst_eq_none.mpr
          intro v hv
          rw [husers] at hv
          rcases List.mem_append.mp hv with hvpre | hvrest
          · have hR := hcross v hvpre w (List.mem_cons_self w post)
            cases hmt : resetTokenMatch (sha256 tok) now2 v with
            | false => rfl
            | true =>
              exact absurd ⟨(resetTokenMatch_iff.mp hmt).1, hwtok⟩ hR
          · rcases List.mem_cons.mp hvrest with hveq | hvpost
            · subst hveq
              simp [resetTokenMatch, applyReset]
            · have hR := hpost v hvpost
              cases hmt : resetTokenMatch (sha256 tok) now2 v with
              | false => rfl
              | true =>
                exact absurd ⟨hwtok, (resetTokenMatch_iff.mp hmt).1⟩ hR
        rw [hcall]
        show (resetPassword { db with users := usersNew } tok pw2 now2).1 = _
        unfold resetPassword
        rw [show ({ db with users := usersNew } : DB).users = usersNew from rfl, hnone2]
      · intro hexp
        exfalso
        obtain ⟨e, hee, hlt⟩ := (resetTokenMatch_iff.mp hw).2
        have hmem : w ∈ db.users := by rw [hsplit]; simp
        have := hexp w hmem e hee
        omega

/-- C3 witness at the fixture store holding one pending token. -/
theorem c3_witness :
    ((resetPassword dbReset "tkn" "newpassword" 1000).1.status = 200 ↔
      ∃ u ∈ dbReset.users, u.resetPasswordToken = some (sha256 "tkn") ∧
        ∃ e, u.resetPasswordExpire = some e ∧ 1000 < e) ∧
    ((resetPassword dbReset "tkn" "newpassword" 1000).1.status = 200 →
      (resetPassword (resetPassword dbReset "tkn" "newpassword" 1000).2 "tkn" "p2" 2000).1 =
        { status := 400, message := "Invalid or expired token.", token := none }) ∧
    ((∀ u ∈ dbReset.users, ∀ e, u.resetPasswordExpire = some e → e ≤ 1000) →
      (resetPassword dbReset "tkn" "newpassword" 1000).1 =
        { status := 400, message := "Invalid or expired token.", token := none }) :=
  c3_reset_token_single_use_window dbReset "tkn" "newpassword" "p2" 1000 2000 (by decide)

end TDC
